import Mathlib

/-!
Verification of the SQL-building and reconciliation layer of the
terraform-provider-clickhousedbops repository.

The repository ships two revisions of several files; where both revisions are
present the suffix `A` marks the revision found in
`internal/dbops/settingsprofile.go` / `internal/querybuilder/alterrole.go`
(second half), and the suffix `B` marks the revision found in the
`unnamed/part_003` chunk / the first half of `alterrole.go`, as documented on
each definition.
-/

namespace ClickhouseDbops

/-- The backtick character, written by code point to keep source text plain. -/
def backtickChar : Char := Char.ofNat 96

/-- The backslash character. -/
def backslashChar : Char := Char.ofNat 92

/-- The single-quote character. -/
def singleQuoteChar : Char := Char.ofNat 39

/-- A one-character string holding a single quote. -/
def squote : String := String.mk [singleQuoteChar]

/-- Escape every embedded backtick of a string as backslash-backtick.
Modelled from the spec: the identifier-escaping helper of the
`internal/querybuilder` package is not under `src/`; its behaviour is fixed by
`where_test.go` (field `te` ++ backtick ++ `st` renders with the inner backtick
escaped by a backslash). -/
def escapeBacktickChars (s : String) : String :=
  String.mk (s.data.flatMap (fun c =>
    if c = backtickChar then [backslashChar, backtickChar] else [c]))

/-- Wrap a string in backticks, escaping embedded backticks.
Modelled from the spec: the `backtick` helper of `internal/querybuilder` is not
under `src/`; behaviour fixed by `where_test.go` and `createuser_test.go`. -/
def backtick (s : String) : String :=
  "`" ++ escapeBacktickChars s ++ "`"

/-- Wrap a string in single quotes.
Modelled from the spec: the `quote` helper of `internal/querybuilder` is not
under `src/`; behaviour fixed by `where_test.go` and `createuser_test.go`
(values render wrapped in single quotes). -/
def quote (s : String) : String :=
  squote ++ s ++ squote

/-- `errors.WithMessage err msg` of the pingcap errors package renders as
`msg: err`; errors are modelled as their rendered strings. -/
def withMessage (msg e : String) : String := msg ++ ": " ++ e

/-- Regrouping helper: merging two adjacent append operands. -/
theorem append_merge (a : String) {x y z : String} (h : x ++ y = z) :
    a ++ x ++ y = a ++ z := by
  rw [String.append_assoc, h]

/-- `strings.Join xs sep` of the Go standard library. -/
def joinWith (sep : String) : List String → String
  | [] => ""
  | [x] => x
  | x :: y :: xs => x ++ sep ++ joinWith sep (y :: xs)

/-! ## WHERE clauses (`unnamed/part_005`, `simpleWhere.Clause`) -/

/-- The dynamically-typed values passed to `WhereEquals` / `WhereDiffers` in
the repository: Go `nil`, strings (and string-kinded aliases), `fmt.Stringer`
values, integers, and possibly-nil string pointers. -/
inductive GoValue where
  | vNull : GoValue
  | vString : String → GoValue
  | vStringer : String → GoValue
  | vInt : Int → GoValue
  | vStrPtr : Option String → GoValue
deriving DecidableEq, Repr

/-- `isNilValue` from `unnamed/part_005`: true for the nil interface and for a
typed nil pointer. -/
def isNilValue : GoValue → Bool
  | GoValue.vNull => true
  | GoValue.vStrPtr none => true
  | _ => false

/-- `stringValue` from `unnamed/part_005`: extracts a string from strings,
`fmt.Stringer` values and non-nil string pointers. -/
def stringValue : GoValue → Option String
  | GoValue.vString s => some s
  | GoValue.vStringer s => some s
  | GoValue.vStrPtr (some s) => some s
  | _ => none

/-- Rendering of the remaining (non string-like, non nil) values with Go
verb `%v`; only integers reach this branch in the repository. -/
def goFormat : GoValue → String
  | GoValue.vInt n => toString n
  | GoValue.vString s => s
  | GoValue.vStringer s => s
  | GoValue.vStrPtr _ => ""
  | GoValue.vNull => ""

/-- `simpleWhere.Clause` from `unnamed/part_005`: nil values render as
`IS NULL` (or `IS NOT NULL` for the `<>` operator), string-like values are
single quoted, anything else is rendered with `%v`. -/
def simpleWhereClause (field op : String) (value : GoValue) : String :=
  if isNilValue value then
    let predicate := if op = "<>" then "IS NOT NULL" else "IS NULL"
    backtick field ++ " " ++ predicate
  else
    match stringValue value with
    | some s => backtick field ++ " " ++ op ++ " " ++ quote s
    | none => backtick field ++ " " ++ op ++ " " ++ goFormat value

/-- `WhereEquals` from `unnamed/part_005` (operator `=`). -/
def whereEqualsClause (f : String) (v : GoValue) : String :=
  simpleWhereClause f "=" v

/-- `WhereDiffers` from `unnamed/part_005` (operator `<>`). -/
def whereDiffersClause (f : String) (v : GoValue) : String :=
  simpleWhereClause f "<>" v

/-- `IsNull` from `unnamed/part_005` (empty operator, nil value). -/
def isNullWhereClause (f : String) : String :=
  simpleWhereClause f "" GoValue.vNull

/-- C5: for every WHERE clause built by WhereEquals or WhereDiffers, the field
name is wrapped in backticks with embedded backticks escaped, string-like
values are single quoted, and a nil value yields `IS NULL` for WhereEquals and
`IS NOT NULL` for WhereDiffers. -/
theorem simpleWhere_clause_spec (f s : String) (v : GoValue) :
    (isNilValue v = true →
      whereEqualsClause f v = backtick f ++ " IS NULL"
      ∧ whereDiffersClause f v = backtick f ++ " IS NOT NULL")
    ∧ (stringValue v = some s →
      whereEqualsClause f v = backtick f ++ " = " ++ quote s
      ∧ whereDiffersClause f v = backtick f ++ " <> " ++ quote s)
    ∧ whereEqualsClause "te`st" (GoValue.vString "value")
        = "`te\\`st` = " ++ quote "value" := by
  refine ⟨fun hnil => ?_, fun hs => ?_, by decide⟩
  · constructor <;>
    · simp only [whereEqualsClause, whereDiffersClause, simpleWhereClause, hnil,
        if_true, reduceIte]
      exact append_merge (backtick f) rfl
  · have hnil : isNilValue v = false := by
      cases v <;> simp_all [stringValue, isNilValue]
      rename_i p
      cases p <;> simp_all [stringValue, isNilValue]
    constructor <;>
    · simp only [whereEqualsClause, whereDiffersClause, simpleWhereClause, hnil,
        Bool.false_eq_true, if_false, hs]
      rw [append_merge (backtick f) rfl, append_merge (backtick f) rfl]
      rfl

/-- C5 witness: concrete instances of the clause shapes, matching the unit
tests of `where_test.go`. -/
theorem simpleWhere_clause_spec_witness :
    isNilValue (GoValue.vStrPtr none) = true
    ∧ whereEqualsClause "name" (GoValue.vStrPtr none) = backtick "name" ++ " IS NULL"
    ∧ stringValue (GoValue.vString "mark") = some "mark"
    ∧ whereEqualsClause "name" (GoValue.vString "mark")
        = backtick "name" ++ " = " ++ quote "mark" := by
  refine ⟨by decide, ?_, by decide, ?_⟩
  · exact ((simpleWhere_clause_spec "name" "mark" (GoValue.vStrPtr none)).1 (by decide)).1
  · exact ((simpleWhere_clause_spec "name" "mark" (GoValue.vString "mark")).2.1 (by decide)).1

/-! ## CREATE USER builder (`unnamed/part_006`, `createUserQueryBuilder`) -/

/-- The configuration accumulated by the fluent `createUserQueryBuilder` of
`unnamed/part_006`: the `identified` field holds the already-rendered
IDENTIFIED clause, exactly as in the Go struct. -/
structure CreateUserConfig where
  resourceName : String
  identified : String := ""
  defaultRole : Option String := none
  settingsProfile : Option String := none
  clusterName : Option String := none
deriving DecidableEq, Repr

/-- The `sha256_hash` identification constant of `unnamed/part_006`. -/
def identificationSHA256Hash : String := "sha256_hash"

/-- The `Identified` method of `unnamed/part_006`: renders
`IDENTIFIED WITH <with> BY <quoted by>`. -/
def identifiedClause (w b : String) : String :=
  "IDENTIFIED WITH " ++ w ++ " BY " ++ quote b

/-- The `IdentifiedWithSSLCertCN` method of `unnamed/part_006`: renders
`IDENTIFIED WITH ssl_certificate CN <quoted cn>`. -/
def identifiedWithSSLCertCNClause (cn : String) : String :=
  "IDENTIFIED WITH ssl_certificate CN " ++ quote cn

/-- Token accumulation of `createUserQueryBuilder.Build` from
`unnamed/part_006`, mirroring the sequential appends of the Go code. -/
def createUserTokens (q : CreateUserConfig) : List String :=
  let t0 := ["CREATE", "USER", "IF", "NOT", "EXISTS", backtick q.resourceName]
  let t1 := match q.clusterName with
    | some c => t0 ++ ["ON", "CLUSTER", quote c]
    | none => t0
  let t2 := if q.identified = "" then t1 else t1 ++ [q.identified]
  let t3 := match q.settingsProfile with
    | some p => t2 ++ ["SETTINGS", "PROFILE", quote p]
    | none => t2
  match q.defaultRole with
  | some r => t3 ++ ["DEFAULT", "ROLE", quote r]
  | none => t3

/-- `createUserQueryBuilder.Build` from `unnamed/part_006`. -/
def createUserBuild (q : CreateUserConfig) : Except String String :=
  if q.resourceName = "" then
    Except.error "resourceName cannot be empty for CREATE USER queries"
  else
    Except.ok (joinWith " " (createUserTokens q) ++ ";")

/-- C4: for every non-empty user name, Build succeeds and returns the tokens
in the fixed order CREATE USER IF NOT EXISTS, backtick-quoted name, optional
ON CLUSTER with single-quoted cluster, IDENTIFIED clause, SETTINGS PROFILE,
DEFAULT ROLE, joined by single spaces and terminated by a semicolon; Build
errors exactly when the name is empty. The closed conjunct is the
`createuser_test.go` vector with cluster, SSL CN and default role. -/
theorem createUserBuild_spec (q : CreateUserConfig) :
    (q.resourceName = "" →
      createUserBuild q
        = Except.error "resourceName cannot be empty for CREATE USER queries")
    ∧ (q.resourceName ≠ "" →
      createUserBuild q = Except.ok (joinWith " "
        (["CREATE", "USER", "IF", "NOT", "EXISTS", backtick q.resourceName]
          ++ (match q.clusterName with
              | some c => ["ON", "CLUSTER", quote c]
              | none => [])
          ++ (if q.identified = "" then [] else [q.identified])
          ++ (match q.settingsProfile with
              | some p => ["SETTINGS", "PROFILE", quote p]
              | none => [])
          ++ (match q.defaultRole with
              | some r => ["DEFAULT", "ROLE", quote r]
              | none => [])) ++ ";"))
    ∧ createUserBuild { resourceName := "test", clusterName := some "dev_cluster",
                        identified := identifiedWithSSLCertCNClause "test",
                        defaultRole := some "reader", settingsProfile := none }
      = Except.ok ("CREATE USER IF NOT EXISTS `test` ON CLUSTER " ++ quote "dev_cluster"
          ++ " IDENTIFIED WITH ssl_certificate CN " ++ quote "test"
          ++ " DEFAULT ROLE " ++ quote "reader" ++ ";") := by
  refine ⟨fun h => by simp [createUserBuild, h], fun h => ?_, by rfl⟩
  rcases q with ⟨name, ident, role, profile, cluster⟩
  dsimp only at h ⊢
  cases cluster <;> cases role <;> cases profile <;> by_cases hi : ident = "" <;>
    simp [createUserBuild, createUserTokens, h, hi]

/-- C4 witness: the no-option vector of `createuser_test.go`. -/
theorem createUserBuild_spec_witness :
    createUserBuild { resourceName := "john", identified := "", defaultRole := none,
                      settingsProfile := none, clusterName := none }
      = Except.ok "CREATE USER IF NOT EXISTS `john`;" :=
  (createUserBuild_spec _).2.1 (by decide)

/-! ## ALTER USER builder (`unnamed/part_007`) and the two ALTER ROLE builders
(`internal/querybuilder/alterrole.go`, first and second revision) -/

/-- Configuration of `alterUserQueryBuilder` from `unnamed/part_007`. -/
structure AlterUserConfig where
  resourceName : String
  oldSettingsProfile : Option String := none
  newSettingsProfile : Option String := none
  newName : Option String := none
  clusterName : Option String := none
  setSettingsProfile : Option String := none
  ifExists : Bool := false
deriving DecidableEq, Repr

/-- `alterUserQueryBuilder.Build` from `unnamed/part_007`: only the
`setSettingsProfile` field produces a change clause; the rename and
add/drop-profile fields are stored but never consulted by Build. -/
def alterUserBuild (q : AlterUserConfig) : Except String String :=
  if q.resourceName = "" then
    Except.error "resourceName cannot be empty for ALTER USER queries"
  else
    let t0 := ["ALTER", "USER"]
    let t1 := if q.ifExists then t0 ++ ["IF", "EXISTS"] else t0
    let t2 := t1 ++ [backtick q.resourceName]
    let t3 := match q.clusterName with
      | some c => t2 ++ ["ON", "CLUSTER", quote c]
      | none => t2
    match q.setSettingsProfile with
    | some p => Except.ok (joinWith " " (t3 ++ ["SETTINGS", "PROFILE", backtick p]) ++ ";")
    | none => Except.error "no change to be made"

/-- Configuration of `alterRoleQueryBuilder` (both revisions share the same
fields). -/
structure AlterRoleConfig where
  resourceName : String
  oldSettingsProfile : Option String := none
  newSettingsProfile : Option String := none
  newName : Option String := none
  clusterName : Option String := none
  setSettingsProfile : Option String := none
  ifExists : Bool := false
deriving DecidableEq, Repr

/-- `alterRoleQueryBuilder.Build`, first revision of `alterrole.go`
(lines 67 to 96): the legacy variant honouring only `setSettingsProfile`. -/
def alterRoleBuildA (q : AlterRoleConfig) : Except String String :=
  if q.resourceName = "" then
    Except.error "resourceName cannot be empty for ALTER ROLE queries"
  else
    let t0 := ["ALTER", "ROLE"]
    let t1 := if q.ifExists then t0 ++ ["IF", "EXISTS"] else t0
    let t2 := t1 ++ [backtick q.resourceName]
    let t3 := match q.clusterName with
      | some c => t2 ++ ["ON", "CLUSTER", quote c]
      | none => t2
    match q.setSettingsProfile with
    | some p => Except.ok (joinWith " " (t3 ++ ["SETTINGS", "PROFILE", backtick p]) ++ ";")
    | none => Except.error "no change to be made"

/-- `alterRoleQueryBuilder.Build`, second revision of `alterrole.go`
(lines 163 to 202): RENAME TO is appended before ON CLUSTER, the profile
clauses after it; the pair components track the `anyChanges` flag. -/
def alterRoleBuildB (q : AlterRoleConfig) : Except String String :=
  if q.resourceName = "" then
    Except.error "resourceName cannot be empty for ALTER ROLE queries"
  else
    let t1 := if q.ifExists then ["ALTER", "ROLE", "IF", "EXISTS"] else ["ALTER", "ROLE"]
    let t2 := t1 ++ [backtick q.resourceName]
    let s3 : Bool × List String :=
      match q.newName with
      | some n =>
        if n = q.resourceName then (false, t2)
        else (true, t2 ++ ["RENAME", "TO", backtick n])
      | none => (false, t2)
    let t4 := match q.clusterName with
      | some c => s3.2 ++ ["ON", "CLUSTER", quote c]
      | none => s3.2
    let s5 : Bool × List String :=
      match q.oldSettingsProfile, q.newSettingsProfile with
      | some o, some n =>
        if o = n then (false, t4) else (true, t4 ++ ["DROP", "PROFILES", quote o])
      | some o, none => (true, t4 ++ ["DROP", "PROFILES", quote o])
      | none, _ => (false, t4)
    let s6 : Bool × List String :=
      match q.newSettingsProfile, q.oldSettingsProfile with
      | some n, some o =>
        if n = o then (false, s5.2) else (true, s5.2 ++ ["ADD", "PROFILE", quote n])
      | some n, none => (true, s5.2 ++ ["ADD", "PROFILE", quote n])
      | none, _ => (false, s5.2)
    if s3.1 || s5.1 || s6.1 then
      Except.ok (joinWith " " s6.2 ++ ";")
    else
      Except.error "no change to be made"

/-- The RENAME TO tokens the second ALTER ROLE revision emits. -/
def roleRenameTokens (q : AlterRoleConfig) : List String :=
  match q.newName with
  | some n => if n = q.resourceName then [] else ["RENAME", "TO", backtick n]
  | none => []

/-- The DROP PROFILES tokens the second ALTER ROLE revision emits. -/
def roleDropTokens (q : AlterRoleConfig) : List String :=
  match q.oldSettingsProfile, q.newSettingsProfile with
  | some o, some n => if o = n then [] else ["DROP", "PROFILES", quote o]
  | some o, none => ["DROP", "PROFILES", quote o]
  | none, _ => []

/-- The ADD PROFILE tokens the second ALTER ROLE revision emits. -/
def roleAddTokens (q : AlterRoleConfig) : List String :=
  match q.newSettingsProfile, q.oldSettingsProfile with
  | some n, some o => if n = o then [] else ["ADD", "PROFILE", quote n]
  | some n, none => ["ADD", "PROFILE", quote n]
  | none, _ => []

/-- C2 counterexample: the second ALTER ROLE revision places RENAME TO before
ON CLUSTER, so ON CLUSTER does not immediately follow the object name and does
not precede the RENAME TO change clause. -/
theorem alterRole_rename_precedes_cluster :
    alterRoleBuildB { resourceName := "role1", newName := some "role2",
                      clusterName := some "c1", oldSettingsProfile := none,
                      newSettingsProfile := none, setSettingsProfile := none,
                      ifExists := false }
      = Except.ok ("ALTER ROLE `role1` RENAME TO `role2` ON CLUSTER "
          ++ quote "c1" ++ ";") := by
  rfl

/-- C2 amended: in ALTER USER statements and in legacy-revision ALTER ROLE
statements, ON CLUSTER immediately follows the object name (after any
IF EXISTS) and precedes the SETTINGS PROFILE change clause; in the second
ALTER ROLE revision, ON CLUSTER comes after any RENAME TO clause and before
the DROP PROFILES and ADD PROFILE clauses. -/
theorem alter_on_cluster_position
    (qu : AlterUserConfig) (qr : AlterRoleConfig) (c p s : String) :
    (qu.clusterName = some c → qu.setSettingsProfile = some p →
      alterUserBuild qu = Except.ok s →
      s = joinWith " "
        ((if qu.ifExists then ["ALTER", "USER", "IF", "EXISTS"] else ["ALTER", "USER"])
          ++ [backtick qu.resourceName, "ON", "CLUSTER", quote c,
              "SETTINGS", "PROFILE", backtick p]) ++ ";")
    ∧ (qr.clusterName = some c → qr.setSettingsProfile = some p →
      alterRoleBuildA qr = Except.ok s →
      s = joinWith " "
        ((if qr.ifExists then ["ALTER", "ROLE", "IF", "EXISTS"] else ["ALTER", "ROLE"])
          ++ [backtick qr.resourceName, "ON", "CLUSTER", quote c,
              "SETTINGS", "PROFILE", backtick p]) ++ ";")
    ∧ (qr.clusterName = some c →
      alterRoleBuildB qr = Except.ok s →
      s = joinWith " "
        ((if qr.ifExists then ["ALTER", "ROLE", "IF", "EXISTS"] else ["ALTER", "ROLE"])
          ++ [backtick qr.resourceName] ++ roleRenameTokens qr
          ++ ["ON", "CLUSTER", quote c]
          ++ roleDropTokens qr ++ roleAddTokens qr) ++ ";") := by
  refine ⟨fun hc hp hok => ?_, fun hc hp hok => ?_, fun hc hok => ?_⟩
  · rcases qu with ⟨name, o1, n1, nn, cl, sp, ife⟩
    by_cases hn : name = "" <;>
      cases ife <;>
        simp_all [alterUserBuild]
  · rcases qr with ⟨name, o1, n1, nn, cl, sp, ife⟩
    by_cases hn : name = "" <;>
      cases ife <;>
        simp_all [alterRoleBuildA]
  · rcases qr with ⟨name, o1, n1, nn, cl, sp, ife⟩
    obtain rfl : cl = some c := hc
    by_cases hn : name = ""
    · simp [alterRoleBuildB, hn] at hok
    · simp only [alterRoleBuildB, hn, if_false, reduceIte] at hok
      cases ife <;>
        rcases nn with _ | n <;>
          rcases o1 with _ | o <;>
            rcases n1 with _ | n2 <;>
              dsimp only at hok <;>
                split_ifs at hok <;>
                  simp_all [roleRenameTokens, roleDropTokens, roleAddTokens]

/-- C2 witness: concrete ALTER USER and ALTER ROLE statements with a cluster
set, checked against the stated token order. -/
theorem alter_on_cluster_position_witness :
    "ALTER USER `u` ON CLUSTER " ++ quote "c" ++ " SETTINGS PROFILE `p`;"
      = joinWith " "
        ((if false then ["ALTER", "USER", "IF", "EXISTS"] else ["ALTER", "USER"])
          ++ [backtick "u", "ON", "CLUSTER", quote "c",
              "SETTINGS", "PROFILE", backtick "p"]) ++ ";" := by
  exact (alter_on_cluster_position
    { resourceName := "u", clusterName := some "c", setSettingsProfile := some "p" }
    { resourceName := "r" } "c" "p"
    ("ALTER USER `u` ON CLUSTER " ++ quote "c" ++ " SETTINGS PROFILE `p`;")).1
    rfl rfl (by rfl)

/-- C3 counterexample: configuring only RenameTo (to a different name) on the
ALTER USER builder does not produce a RENAME TO clause; Build fails with the
no-change error. -/
theorem alterUser_renameTo_ignored :
    alterUserBuild { resourceName := "user1", newName := some "user2",
                     oldSettingsProfile := none, newSettingsProfile := none,
                     clusterName := none, setSettingsProfile := none,
                     ifExists := false }
      = Except.error "no change to be made" := by
  rfl

/-- C3 amended: for the ALTER USER builder (and the legacy ALTER ROLE
revision) with non-empty resource name, Build succeeds exactly when
SetSettingsProfile was configured, emitting the SETTINGS PROFILE clause;
RenameTo, AddSettingsProfile and DropSettingsProfile are recorded but ignored,
so without SetSettingsProfile Build fails with the no-change error. -/
theorem alterUserBuild_settings_profile_only
    (q : AlterUserConfig) (qr : AlterRoleConfig)
    (hn : q.resourceName ≠ "") (hrn : qr.resourceName ≠ "") :
    (q.setSettingsProfile = none →
      alterUserBuild q = Except.error "no change to be made")
    ∧ (∀ p, q.setSettingsProfile = some p →
      alterUserBuild q = Except.ok (joinWith " "
        ((if q.ifExists then ["ALTER", "USER", "IF", "EXISTS"] else ["ALTER", "USER"])
          ++ [backtick q.resourceName]
          ++ (match q.clusterName with
              | some c => ["ON", "CLUSTER", quote c]
              | none => [])
          ++ ["SETTINGS", "PROFILE", backtick p]) ++ ";"))
    ∧ (qr.setSettingsProfile = none →
      alterRoleBuildA qr = Except.error "no change to be made")
    ∧ (∀ p, qr.setSettingsProfile = some p →
      alterRoleBuildA qr = Except.ok (joinWith " "
        ((if qr.ifExists then ["ALTER", "ROLE", "IF", "EXISTS"] else ["ALTER", "ROLE"])
          ++ [backtick qr.resourceName]
          ++ (match qr.clusterName with
              | some c => ["ON", "CLUSTER", quote c]
              | none => [])
          ++ ["SETTINGS", "PROFILE", backtick p]) ++ ";")) := by
  refine ⟨fun h0 => ?_, fun p hp => ?_, fun h0 => ?_, fun p hp => ?_⟩
  · simp [alterUserBuild, hn, h0]
  · rcases q with ⟨name, o1, n1, nn, cl, sp, ife⟩
    cases ife <;> cases cl <;> simp_all [alterUserBuild]
  · simp [alterRoleBuildA, hrn, h0]
  · rcases qr with ⟨name, o1, n1, nn, cl, sp, ife⟩
    cases ife <;> cases cl <;> simp_all [alterRoleBuildA]

/-- C3 witness: a concrete ALTER USER build with a settings profile set. -/
theorem alterUserBuild_settings_profile_only_witness :
    alterUserBuild { resourceName := "u", setSettingsProfile := some "p" }
      = Except.ok (joinWith " "
        ((if false then ["ALTER", "USER", "IF", "EXISTS"] else ["ALTER", "USER"])
          ++ [backtick "u"] ++ [] ++ ["SETTINGS", "PROFILE", backtick "p"]) ++ ";") := by
  exact ((alterUserBuild_settings_profile_only
    { resourceName := "u", setSettingsProfile := some "p" }
    { resourceName := "r" } (by decide) (by decide)).2.1 "p" rfl)

/-! ## ALTER USER ... DEFAULT ROLE SQL (two revisions of
`buildAlterUserDefaultRoleSQL`) -/

/-- `buildAlterUserDefaultRoleSQL`, revision of
`internal/dbops/settingsprofile.go` (lines 620 to 639): role names are
backtick-wrapped without escaping, the cluster name is appended raw, and an
empty role list leaves the role clause empty. -/
def buildAlterUserDefaultRoleSQLA (userName : String) (roles : List String)
    (cluster : Option String) : String :=
  let quoted := roles.map (fun r => "`" ++ r ++ "`")
  let sql := "ALTER USER `" ++ userName ++ "` DEFAULT ROLE " ++ joinWith ", " quoted
  (match cluster with
   | some cn => sql ++ " ON CLUSTER " ++ cn
   | none => sql) ++ ";"

/-- `buildAlterUserDefaultRoleSQL`, revision of `unnamed/part_003`
(lines 291 to 317): same as the other revision except that an empty role list
renders as NONE. -/
def buildAlterUserDefaultRoleSQLB (userName : String) (roles : List String)
    (cluster : Option String) : String :=
  let roleClause :=
    if roles = [] then "NONE"
    else joinWith ", " (roles.map (fun r => "`" ++ r ++ "`"))
  let sql := "ALTER USER `" ++ userName ++ "` DEFAULT ROLE " ++ roleClause
  (match cluster with
   | some cn => sql ++ " ON CLUSTER " ++ cn
   | none => sql) ++ ";"

/-! ## dbops reconciliation operations

The ClickHouse wire client is opaque per the spec; each operation takes the
responses of the client calls it performs, in call order, and returns its
result together with the list of statements passed to `Exec` (the mutating
SQL trace). Errors are modelled as their rendered strings. -/

/-- `activateDefaultRole`, revision of `internal/dbops/settingsprofile.go`
(lines 533 to 560): failures of the default-roles lookup and of the ALTER
statement are propagated. `rolesRes` is the `getDefaultRoles` outcome and
`alterRes` the `Exec` outcome. -/
def activateDefaultRoleA (userName roleName : String) (cluster : Option String)
    (rolesRes : Except String (List String)) (alterRes : Except String Unit) :
    Except String Unit × List String :=
  match rolesRes with
  | Except.error e =>
    (Except.error (withMessage "error getting current default roles" e), [])
  | Except.ok currentRoles =>
    if roleName ∈ currentRoles then (Except.ok (), [])
    else
      let sql := buildAlterUserDefaultRoleSQLA userName (currentRoles ++ [roleName]) cluster
      match alterRes with
      | Except.ok _ => (Except.ok (), [sql])
      | Except.error e =>
        (Except.error (withMessage "error executing ALTER USER DEFAULT ROLE" e), [sql])

/-- `activateDefaultRole`, revision of `unnamed/part_003` (lines 151 to 182):
a failing default-roles lookup is swallowed (activation is skipped with a nil
error); a failing ALTER statement is still returned to the caller. -/
def activateDefaultRoleB (userName roleName : String) (cluster : Option String)
    (rolesRes : Except String (List String)) (alterRes : Except String Unit) :
    Except String Unit × List String :=
  match rolesRes with
  | Except.error _ => (Except.ok (), [])
  | Except.ok currentRoles =>
    if roleName ∈ currentRoles then (Except.ok (), [])
    else
      let sql := buildAlterUserDefaultRoleSQLB userName (currentRoles ++ [roleName]) cluster
      match alterRes with
      | Except.ok _ => (Except.ok (), [sql])
      | Except.error e =>
        (Except.error (withMessage "error executing ALTER USER DEFAULT ROLE" e), [sql])

/-- The `GrantRole` record of `internal/dbops` (both revisions agree). -/
structure GrantRole where
  roleName : String
  granteeUserName : Option String := none
  granteeRoleName : Option String := none
  adminOption : Bool := false
deriving DecidableEq, Repr

/-- Modelled from the spec: the GRANT builder (`querybuilder.GrantRole ...
Build`) is not under `src/`; per the spec it assembles a GRANT statement with
identifier quoting and the optional ON CLUSTER and WITH ADMIN OPTION
clauses. -/
def grantRoleBuild (roleName grantee : String) (cluster : Option String)
    (adminOption : Bool) : Except String String :=
  if roleName = "" then
    Except.error "roleName cannot be empty for GRANT ROLE queries"
  else if grantee = "" then
    Except.error "grantee cannot be empty for GRANT ROLE queries"
  else
    Except.ok ("GRANT " ++ backtick roleName ++ " TO " ++ backtick grantee
      ++ (match cluster with
          | some c => " ON CLUSTER " ++ quote c
          | none => "")
      ++ (if adminOption then " WITH ADMIN OPTION" else "") ++ ";")

/-- `GrantRole`, revision of `internal/dbops/settingsprofile.go` (lines 410 to
440): a failing default-role activation aborts the call with the wrapped
error. `grantRes` is the GRANT `Exec` outcome, `rolesRes` and `alterRes` feed
the activation step, `lookupRes` is the final `GetGrantRole` outcome. -/
def grantRoleA (g : GrantRole) (cluster : Option String)
    (grantRes : Except String Unit) (rolesRes : Except String (List String))
    (alterRes : Except String Unit) (lookupRes : Except String (Option GrantRole)) :
    Except String (Option GrantRole) × List String :=
  match (match g.granteeUserName with
         | some u => some u
         | none => g.granteeRoleName) with
  | none => (Except.error "either GranteeUserName or GranteeRoleName must be set", [])
  | some grantee =>
    match grantRoleBuild g.roleName grantee cluster g.adminOption with
    | Except.error e => (Except.error (withMessage "error building query" e), [])
    | Except.ok sql =>
      match grantRes with
      | Except.error e => (Except.error (withMessage "error running query" e), [sql])
      | Except.ok _ =>
        match g.granteeUserName with
        | some u =>
          let ar := activateDefaultRoleA u g.roleName cluster rolesRes alterRes
          match ar.1 with
          | Except.error e =>
            (Except.error (withMessage "error activating default role" e), sql :: ar.2)
          | Except.ok _ =>
            match lookupRes with
            | Except.error e => (Except.error e, sql :: ar.2)
            | Except.ok r => (Except.ok r, sql :: ar.2)
        | none =>
          match lookupRes with
          | Except.error e => (Except.error e, [sql])
          | Except.ok r => (Except.ok r, [sql])

/-- `GrantRole`, revision of `unnamed/part_003` (lines 21 to 51): the
activation step runs but its result is discarded with a blank assignment, so
a failing ALTER USER DEFAULT ROLE never reaches the caller. -/
def grantRoleB (g : GrantRole) (cluster : Option String)
    (grantRes : Except String Unit) (rolesRes : Except String (List String))
    (alterRes : Except String Unit) (lookupRes : Except String (Option GrantRole)) :
    Except String (Option GrantRole) × List String :=
  match (match g.granteeUserName with
         | some u => some u
         | none => g.granteeRoleName) with
  | none => (Except.error "either GranteeUserName or GranteeRoleName must be set", [])
  | some grantee =>
    match grantRoleBuild g.roleName grantee cluster g.adminOption with
    | Except.error e => (Except.error (withMessage "error building query" e), [])
    | Except.ok sql =>
      match grantRes with
      | Except.error e => (Except.error (withMessage "error running query" e), [sql])
      | Except.ok _ =>
        match g.granteeUserName with
        | some u =>
          let ar := activateDefaultRoleB u g.roleName cluster rolesRes alterRes
          match lookupRes with
          | Except.error e => (Except.error e, sql :: ar.2)
          | Except.ok r => (Except.ok r, sql :: ar.2)
        | none =>
          match lookupRes with
          | Except.error e => (Except.error e, [sql])
          | Except.ok r => (Except.ok r, [sql])

/-- The `User` record of `internal/dbops` (both revisions agree). -/
structure DbUser where
  id : String := ""
  name : String
  passwordSha256Hash : String := ""
  defaultRole : String := ""
  sslCertificateCN : String := ""
  settingsProfiles : List String := []
deriving DecidableEq, Repr

/-- Modelled from the spec: the DROP USER builder (`querybuilder.NewDropUser
... Build`) is not under `src/`; per the spec it assembles a DROP USER
statement with identifier quoting and an optional ON CLUSTER clause. -/
def dropUserBuild (name : String) (cluster : Option String) : Except String String :=
  if name = "" then
    Except.error "resourceName cannot be empty for DROP USER queries"
  else
    Except.ok ("DROP USER " ++ backtick name
      ++ (match cluster with
          | some c => " ON CLUSTER " ++ quote c
          | none => "") ++ ";")

/-- `DeleteUser` from `internal/dbops/user.go` (lines 124 to 146; the
`unnamed/part_004` revision differs only in keying the read by name): first
reads the user, returns nil without any `Exec` when it is absent, and
otherwise executes the single built DROP USER statement. `getRes` is the
outcome of the `GetUser` read (pure SELECT traffic), `execRes` of the DROP
`Exec`. -/
def deleteUser (cluster : Option String) (getRes : Except String (Option DbUser))
    (execRes : Except String Unit) : Except String Unit × List String :=
  match getRes with
  | Except.error e => (Except.error (withMessage "error getting user" e), [])
  | Except.ok none => (Except.ok (), [])
  | Except.ok (some u) =>
    match dropUserBuild u.name cluster with
    | Except.error e => (Except.error (withMessage "error building query" e), [])
    | Except.ok sql =>
      match execRes with
      | Except.error e => (Except.error (withMessage "error running query" e), [sql])
      | Except.ok _ => (Except.ok (), [sql])

/-- The builder-configuration step of `CreateUser` from
`internal/dbops/user.go` (lines 31 to 58; identical in `unnamed/part_004`):
SSL-certificate identification is chosen first, the password hash only when
no certificate CN is set. -/
def createUserQuery (u : DbUser) (cluster : Option String) : CreateUserConfig :=
  let q0 : CreateUserConfig := { resourceName := u.name, clusterName := cluster }
  let q1 :=
    if u.sslCertificateCN ≠ "" then
      { q0 with identified := identifiedWithSSLCertCNClause u.sslCertificateCN }
    else if u.passwordSha256Hash ≠ "" then
      { q0 with identified := identifiedClause identificationSHA256Hash u.passwordSha256Hash }
    else q0
  if u.defaultRole ≠ "" then { q1 with defaultRole := some u.defaultRole } else q1

/-- Modelled from the spec: configuration of the SELECT builder
(`querybuilder.NewSelect`), which is not under `src/`. -/
structure SelectConfig where
  fields : List String
  table : String
  wheres : List String := []
  clusterName : Option String := none
deriving DecidableEq, Repr

/-- Modelled from the spec: the SELECT builder (`NewSelect ... Build`) of
`internal/querybuilder` is not under `src/`; per the spec it assembles a
SELECT statement from the configured fields, table, optional cluster and
WHERE clauses, with identifier quoting. -/
def selectBuild (q : SelectConfig) : Except String String :=
  if q.table = "" then
    Except.error "table cannot be empty for SELECT queries"
  else if q.fields = [] then
    Except.error "at least one field is required for SELECT queries"
  else
    Except.ok ("SELECT " ++ joinWith ", " (q.fields.map backtick)
      ++ " FROM "
      ++ (match q.clusterName with
          | some c => "clusterAllReplicas(" ++ quote c ++ ", " ++ q.table ++ ")"
          | none => q.table)
      ++ (if q.wheres = [] then "" else " WHERE " ++ joinWith " AND " q.wheres)
      ++ ";")

/-- C8 counterexample: on the empty role list the two revisions of
`buildAlterUserDefaultRoleSQL` produce different SQL — one leaves the role
clause empty, the other renders NONE. -/
theorem buildAlterUserDefaultRoleSQL_empty_diverges :
    buildAlterUserDefaultRoleSQLA "u" [] none = "ALTER USER `u` DEFAULT ROLE ;"
    ∧ buildAlterUserDefaultRoleSQLB "u" [] none = "ALTER USER `u` DEFAULT ROLE NONE;"
    ∧ buildAlterUserDefaultRoleSQLA "u" [] none
        ≠ buildAlterUserDefaultRoleSQLB "u" [] none := by
  exact ⟨rfl, rfl, by decide⟩

/-- C8 amended: the two revisions of `buildAlterUserDefaultRoleSQL` produce
identical SQL strings for every non-empty role list (and any user name and
optional cluster name); they differ exactly on the empty role list. -/
theorem buildAlterUserDefaultRoleSQL_agree_nonempty
    (u : String) (roles : List String) (cluster : Option String) (h : roles ≠ []) :
    buildAlterUserDefaultRoleSQLA u roles cluster
      = buildAlterUserDefaultRoleSQLB u roles cluster := by
  cases roles with
  | nil => exact absurd rfl h
  | cons r rs =>
    cases cluster <;>
      simp [buildAlterUserDefaultRoleSQLA, buildAlterUserDefaultRoleSQLB]

/-- C8 witness: the two revisions agree on a concrete singleton role list. -/
theorem buildAlterUserDefaultRoleSQL_agree_nonempty_witness :
    buildAlterUserDefaultRoleSQLA "u" ["r"] none
      = buildAlterUserDefaultRoleSQLB "u" ["r"] none :=
  buildAlterUserDefaultRoleSQL_agree_nonempty "u" ["r"] none (by decide)

/-- C6: both revisions of `activateDefaultRole` diff against the fetched
default-role list: when the granted role is already present no statement is
executed (so a second activation of the same role is a no-op), and otherwise
the single executed ALTER USER DEFAULT ROLE statement carries exactly the
current list with the new role appended at the end. -/
theorem activateDefaultRole_diff (userName roleName : String) (cluster : Option String)
    (roles : List String) (alterRes : Except String Unit) :
    (roleName ∈ roles →
      activateDefaultRoleA userName roleName cluster (Except.ok roles) alterRes
        = (Except.ok (), [])
      ∧ activateDefaultRoleB userName roleName cluster (Except.ok roles) alterRes
        = (Except.ok (), []))
    ∧ (roleName ∉ roles →
      (activateDefaultRoleA userName roleName cluster (Except.ok roles) alterRes).2
        = [buildAlterUserDefaultRoleSQLA userName (roles ++ [roleName]) cluster]
      ∧ (activateDefaultRoleB userName roleName cluster (Except.ok roles) alterRes).2
        = [buildAlterUserDefaultRoleSQLB userName (roles ++ [roleName]) cluster]) := by
  constructor
  · intro h
    constructor <;> simp [activateDefaultRoleA, activateDefaultRoleB, h]
  · intro h
    constructor <;> cases alterRes <;>
      simp [activateDefaultRoleA, activateDefaultRoleB, h]

/-- C6 witness: activating a role that is already a default role executes
nothing; activating a fresh role executes the appended-list statement. -/
theorem activateDefaultRole_diff_witness :
    activateDefaultRoleA "u" "r" none (Except.ok ["r"]) (Except.ok ())
      = (Except.ok (), [])
    ∧ (activateDefaultRoleA "u" "r2" none (Except.ok ["r"]) (Except.ok ())).2
      = [buildAlterUserDefaultRoleSQLA "u" (["r"] ++ ["r2"]) none] := by
  exact ⟨((activateDefaultRole_diff "u" "r" none ["r"] (Except.ok ())).1 (by decide)).1,
    ((activateDefaultRole_diff "u" "r2" none ["r"] (Except.ok ())).2 (by decide)).1⟩

/-- C7: `DeleteUser` is read-modify-write: an absent user yields a nil error
with no mutating SQL, a read failure is propagated with no mutating SQL, and
an existing user leads to exactly one DROP USER statement for that user. -/
theorem deleteUser_read_modify_write (cluster : Option String)
    (getRes : Except String (Option DbUser)) (execRes : Except String Unit)
    (u : DbUser) (e : String) :
    (getRes = Except.ok none →
      deleteUser cluster getRes execRes = (Except.ok (), []))
    ∧ (getRes = Except.error e →
      deleteUser cluster getRes execRes
        = (Except.error (withMessage "error getting user" e), []))
    ∧ (getRes = Except.ok (some u) → u.name ≠ "" →
      (deleteUser cluster getRes execRes).2
        = ["DROP USER " ++ backtick u.name
            ++ (match cluster with
                | some c => " ON CLUSTER " ++ quote c
                | none => "") ++ ";"]) := by
  refine ⟨fun h => by simp [deleteUser, h],
    fun h => by simp [deleteUser, h],
    fun h hn => ?_⟩
  subst h
  cases execRes <;> cases cluster <;> simp [deleteUser, dropUserBuild, hn]

/-- C7 witness: deleting an absent user is a no-op, and deleting an existing
user executes one DROP USER statement. -/
theorem deleteUser_read_modify_write_witness :
    deleteUser none (Except.ok none) (Except.ok ()) = (Except.ok (), [])
    ∧ (deleteUser none (Except.ok (some { name := "john" })) (Except.ok ())).2
      = ["DROP USER " ++ backtick "john" ++ ";"] := by
  exact ⟨(deleteUser_read_modify_write none (Except.ok none) (Except.ok ())
      { name := "john" } "e").1 rfl,
    (deleteUser_read_modify_write none (Except.ok (some { name := "john" }))
      (Except.ok ()) { name := "john" } "e").2.2 rfl (by decide)⟩

/-- C9: in `CreateUser`, SSL-certificate identification takes precedence:
with a non-empty certificate CN the generated statement carries the
`IDENTIFIED WITH ssl_certificate CN` clause and the password hash does not
influence the query at all; with both credentials empty the token list
contains no IDENTIFIED clause. -/
theorem createUser_identification_precedence (u : DbUser) (cluster : Option String) :
    (u.sslCertificateCN ≠ "" →
      identifiedWithSSLCertCNClause u.sslCertificateCN
          ∈ createUserTokens (createUserQuery u cluster)
      ∧ ∀ h2, createUserQuery { u with passwordSha256Hash := h2 } cluster
          = createUserQuery u cluster)
    ∧ (u.sslCertificateCN = "" → u.passwordSha256Hash = "" →
      createUserTokens (createUserQuery u cluster)
        = ["CREATE", "USER", "IF", "NOT", "EXISTS", backtick u.name]
          ++ (match cluster with
              | some c => ["ON", "CLUSTER", quote c]
              | none => [])
          ++ (if u.defaultRole = "" then []
              else ["DEFAULT", "ROLE", quote u.defaultRole])) := by
  constructor
  · intro hssl
    have hne : identifiedWithSSLCertCNClause u.sslCertificateCN ≠ "" := by
      intro hcontra
      have := congrArg String.length hcontra
      simp [identifiedWithSSLCertCNClause, quote, squote, String.length_append] at this
    constructor
    · by_cases hdr : u.defaultRole = "" <;> cases cluster <;>
        simp [createUserQuery, createUserTokens, hssl, hdr, hne]
    · intro h2
      simp [createUserQuery, hssl]
  · intro hssl hpw
    by_cases hdr : u.defaultRole = "" <;> cases cluster <;>
      simp [createUserQuery, createUserTokens, hssl, hpw, hdr]

/-- C9 witness: a user with both a certificate CN and a password hash gets
the ssl_certificate clause, and changing the hash does not change the
query. -/
theorem createUser_identification_precedence_witness :
    identifiedWithSSLCertCNClause "cn1"
      ∈ createUserTokens (createUserQuery
          { name := "u", sslCertificateCN := "cn1", passwordSha256Hash := "h1" } none)
    ∧ createUserQuery
        { name := "u", sslCertificateCN := "cn1", passwordSha256Hash := "h2" } none
      = createUserQuery
          { name := "u", sslCertificateCN := "cn1", passwordSha256Hash := "h1" } none := by
  exact ⟨((createUser_identification_precedence
      { name := "u", sslCertificateCN := "cn1", passwordSha256Hash := "h1" } none).1
      (by decide)).1,
    ((createUser_identification_precedence
      { name := "u", sslCertificateCN := "cn1", passwordSha256Hash := "h1" } none).1
      (by decide)).2 "h2"⟩

/-- C1 counterexample: in the `unnamed/part_003` revision of GrantRole, the
ALTER USER DEFAULT ROLE execution fails (its activation step returns the
wrapped error) yet GrantRole returns the successful lookup result instead of
that error. -/
theorem grantRole_discards_activation_error :
    (grantRoleB { roleName := "r1", granteeUserName := some "u1" } none
        (Except.ok ()) (Except.ok []) (Except.error "boom")
        (Except.ok (some { roleName := "r1", granteeUserName := some "u1" }))).1
      = Except.ok (some { roleName := "r1", granteeUserName := some "u1" })
    ∧ (activateDefaultRoleB "u1" "r1" none (Except.ok []) (Except.error "boom")).1
      = Except.error (withMessage "error executing ALTER USER DEFAULT ROLE" "boom") := by
  exact ⟨rfl, rfl⟩

/-- C1 amended: the `settingsprofile.go` revision of GrantRole propagates
every underlying SQL failure (GRANT execution, default-roles lookup, ALTER
USER DEFAULT ROLE, final grant lookup); the `unnamed/part_003` revision
propagates GRANT-execution and final-lookup failures but discards failures of
the default-role activation, returning the final lookup result. -/
theorem grantRole_error_propagation (g : GrantRole) (cluster : Option String)
    (u e sql : String) (roles : List String)
    (rolesRes : Except String (List String)) (alterRes : Except String Unit)
    (lookupRes : Except String (Option GrantRole))
    (hu : g.granteeUserName = some u)
    (hb : grantRoleBuild g.roleName u cluster g.adminOption = Except.ok sql) :
    ((grantRoleA g cluster (Except.error e) rolesRes alterRes lookupRes).1
        = Except.error (withMessage "error running query" e)
      ∧ (grantRoleB g cluster (Except.error e) rolesRes alterRes lookupRes).1
        = Except.error (withMessage "error running query" e))
    ∧ (rolesRes = Except.error e →
      (grantRoleA g cluster (Except.ok ()) rolesRes alterRes lookupRes).1
        = Except.error (withMessage "error activating default role"
            (withMessage "error getting current default roles" e)))
    ∧ (rolesRes = Except.ok roles → g.roleName ∉ roles → alterRes = Except.error e →
      (grantRoleA g cluster (Except.ok ()) rolesRes alterRes lookupRes).1
        = Except.error (withMessage "error activating default role"
            (withMessage "error executing ALTER USER DEFAULT ROLE" e)))
    ∧ (rolesRes = Except.ok roles → g.roleName ∈ roles →
      lookupRes = Except.error e →
      (grantRoleA g cluster (Except.ok ()) rolesRes alterRes lookupRes).1
        = Except.error e)
    ∧ (rolesRes = Except.ok roles → g.roleName ∉ roles → alterRes = Except.error e →
      (grantRoleB g cluster (Except.ok ()) rolesRes alterRes lookupRes).1
        = lookupRes) := by
  refine ⟨⟨?_, ?_⟩, fun hr => ?_, fun hr hmem ha => ?_, fun hr hmem hl => ?_,
    fun hr hmem ha => ?_⟩
  · simp [grantRoleA, hu, hb]
  · simp [grantRoleB, hu, hb]
  · subst hr
    simp [grantRoleA, hu, hb, activateDefaultRoleA]
  · subst hr
    subst ha
    simp [grantRoleA, hu, hb, activateDefaultRoleA, hmem]
  · subst hr
    subst hl
    simp [grantRoleA, hu, hb, activateDefaultRoleA, hmem]
  · subst hr
    subst ha
    cases lookupRes <;> simp [grantRoleB, hu, hb, activateDefaultRoleB, hmem]

/-- C1 witness: concrete propagation of a failing GRANT execution through the
`settingsprofile.go` revision. -/
theorem grantRole_error_propagation_witness :
    (grantRoleA { roleName := "r1", granteeUserName := some "u1" } none
        (Except.error "down") (Except.ok []) (Except.ok ()) (Except.ok none)).1
      = Except.error (withMessage "error running query" "down") := by
  exact ((grantRole_error_propagation { roleName := "r1", granteeUserName := some "u1" }
    none "u1" "down" ("GRANT `r1` TO `u1`;") [] (Except.ok []) (Except.ok ())
    (Except.ok none) rfl rfl).1).1

/-- C10: query building is a pure translation from builder configuration to a
SQL string: every builder (CREATE USER, ALTER USER, both ALTER ROLE
revisions, SELECT) returns identical results on identically configured
builders, with no other inputs that two calls could differ on. -/
theorem builders_deterministic (a b : CreateUserConfig) (c d : AlterUserConfig)
    (e f : AlterRoleConfig) (g h : SelectConfig) :
    a = b → c = d → e = f → g = h →
    createUserBuild a = createUserBuild b
    ∧ alterUserBuild c = alterUserBuild d
    ∧ alterRoleBuildA e = alterRoleBuildA f
    ∧ alterRoleBuildB e = alterRoleBuildB f
    ∧ selectBuild g = selectBuild h := by
  intro h1 h2 h3 h4
  subst h1
  subst h2
  subst h3
  subst h4
  exact ⟨rfl, rfl, rfl, rfl, rfl⟩

/-- C10 witness: repeated builds of concrete configurations coincide. -/
theorem builders_deterministic_witness :
    createUserBuild { resourceName := "u" } = createUserBuild { resourceName := "u" }
    ∧ alterUserBuild { resourceName := "u", setSettingsProfile := some "p" }
      = alterUserBuild { resourceName := "u", setSettingsProfile := some "p" }
    ∧ alterRoleBuildA { resourceName := "r", setSettingsProfile := some "p" }
      = alterRoleBuildA { resourceName := "r", setSettingsProfile := some "p" }
    ∧ alterRoleBuildB { resourceName := "r", setSettingsProfile := some "p" }
      = alterRoleBuildB { resourceName := "r", setSettingsProfile := some "p" }
    ∧ selectBuild { fields := ["name"], table := "system.users" }
      = selectBuild { fields := ["name"], table := "system.users" } := by
  exact builders_deterministic _ _ _ _ _ _ _ _ rfl rfl rfl rfl

end ClickhouseDbops
